import Mathlib

/-!
Shallow embedding of the `memory-tool` remote-memory-access engine
(`src/lib.rs`, `src/internal/{memory,arch,process}.rs`).

OS syscalls (`ReadProcessMemory`, `WriteProcessMemory`, `VirtualProtectEx`,
process snapshots) are modelled by environments that fix each call's outcome;
every operation returns, besides its result, the trace of OS calls it issued,
so that claims about which calls happen (and in which order) are statable.
Machine integers are modelled as `Nat` with explicit `% 2^64` where usize
arithmetic can wrap.
-/

namespace MemoryTool

/-- `2^64`, the modulus of `u64`/`usize` arithmetic on the x64 host. -/
def U64 : Nat := 2 ^ 64

/-- The `PAGE_EXECUTE_READWRITE` protection constant (0x40). -/
def PAGE_EXECUTE_READWRITE : Nat := 0x40

/-- Embeds `get_last_error_string` (`internal/arch.rs`): formats the last
Win32 error code the way `format!("Win32 Error: \x7b:?\x7d", err)` renders a
`WIN32_ERROR` value. The code itself is supplied by the environment. -/
def get_last_error_string (code : Nat) : String :=
  "Win32 Error: WIN32_ERROR(" ++ toString code ++ ")"

/-- Model of a napi `BigInt` as delivered by `napi_get_value_bigint_words`:
a sign bit plus the magnitude (absolute value) of the JS BigInt. -/
structure BInt where
  signBit : Bool
  mag : Nat
  deriving DecidableEq, Repr

/-- The integer a `BInt` denotes. -/
def BInt.toInt (b : BInt) : Int :=
  if b.signBit then -(b.mag : Int) else (b.mag : Int)

/-- Embeds napi-rs `BigInt::get_u64`: returns `(sign_bit, words[0], lossless)`
where `words[0]` is the low 64-bit word of the magnitude and `lossless`
holds iff the value is non-negative and fits in one word. -/
def BInt.get_u64 (b : BInt) : Bool × Nat × Bool :=
  (b.signBit, b.mag % U64, !b.signBit && decide (b.mag < U64))

/-- Embeds `MemoryTool::bigint_to_addr` (`lib.rs` lines 46-55): rejects a
signed BigInt, then a lossy one, before returning the `u64` address. -/
def bigint_to_addr (b : BInt) : Except String Nat :=
  let (signed, val_u64, lossless) := b.get_u64
  if signed then .error "内存地址不能为负数"
  else if !lossless then .error "内存地址精度丢失"
  else .ok val_u64

/-- One OS call issued by a memory operation, as recorded in a trace. -/
inductive OsCall where
  /-- `WriteProcessMemory` of a scalar: address, `size_of::<T>()`, value. -/
  | writeVal (addr size value : Nat)
  /-- `WriteProcessMemory` of a byte buffer: address and byte contents. -/
  | writeBuf (addr : Nat) (data : List Nat)
  /-- `VirtualProtectEx` over `[addr, addr+size)` with new flags. -/
  | protect (addr size flags : Nat)
  deriving DecidableEq, Repr

/-- Outcomes the OS gives to the calls a read issues. `bytesRead` is the count
the syscall stores through its out-parameter; `value` the buffer content. -/
structure ReadEnv where
  readOk : Bool
  bytesRead : Nat
  value : Nat
  lastError : Nat
  deriving DecidableEq, Repr

/-- Embeds `read_memory_raw` (`internal/memory.rs` lines 22-39): succeeds iff
the syscall reports success AND exactly `size` bytes were transferred;
every failure returns `get_last_error_string()`. -/
def read_memory_raw (env : ReadEnv) (size : Nat) : Except String Nat :=
  if env.readOk && env.bytesRead == size then .ok env.value
  else .error (get_last_error_string env.lastError)

/-- Outcomes the OS gives to the calls a write issues: the direct
`WriteProcessMemory`, the `VirtualProtectEx` to RWX (capturing
`capturedOldProtect`), the retried write, and the restoring
`VirtualProtectEx`. The `bytes_written` out-values are recorded here even
though the source never inspects them. -/
structure WriteEnv where
  directOk : Bool
  directBytes : Nat
  protectOk : Bool
  capturedOldProtect : Nat
  retryOk : Bool
  retryBytes : Nat
  restoreOk : Bool
  lastError : Nat
  deriving DecidableEq, Repr

/-- Embeds `write_memory_raw` (`internal/memory.rs` lines 58-120):
direct write; on failure protect to RWX (stop if that fails); retry;
restore the captured protection unconditionally, discarding its result
(`restoreOk` is never consulted, as in the source's `let _ =`); report the
retry's outcome. `bytes_written` is never inspected on any path. -/
def write_memory_raw (env : WriteEnv) (size addr value : Nat) :
    Except String Unit × List OsCall :=
  if env.directOk then (.ok (), [.writeVal addr size value])
  else if !env.protectOk then
    (.error ("VirtualProtectEx失败: " ++ get_last_error_string env.lastError),
     [.writeVal addr size value, .protect addr size PAGE_EXECUTE_READWRITE])
  else
    let trace : List OsCall :=
      [.writeVal addr size value, .protect addr size PAGE_EXECUTE_READWRITE,
       .writeVal addr size value, .protect addr size env.capturedOldProtect]
    if env.retryOk then (.ok (), trace)
    else (.error ("强制写入失败: " ++ get_last_error_string env.lastError), trace)

/-- Embeds `MemoryTool::write_buffer` (`lib.rs` lines 292-358): validate the
address, then the same direct-write / protect / retry / unconditional-restore
protocol as `write_memory_raw`, with `write_buffer`'s own error strings.
`bytes_written` is never inspected on any path. -/
def write_buffer (env : WriteEnv) (addr : BInt) (data : List Nat) :
    Except String Unit × List OsCall :=
  match bigint_to_addr addr with
  | .error e => (.error e, [])
  | .ok a =>
    if env.directOk then (.ok (), [.writeBuf a data])
    else if !env.protectOk then
      (.error ("修改内存保护失败: " ++ get_last_error_string env.lastError),
       [.writeBuf a data, .protect a data.length PAGE_EXECUTE_READWRITE])
    else
      let trace : List OsCall :=
        [.writeBuf a data, .protect a data.length PAGE_EXECUTE_READWRITE,
         .writeBuf a data, .protect a data.length env.capturedOldProtect]
      if env.retryOk then (.ok (), trace)
      else (.error ("写入缓冲区失败: " ++ get_last_error_string env.lastError), trace)

/-- Target architecture (`internal/arch.rs`): pointer width of the target. -/
inductive Arch where
  | x86
  | x64
  deriving DecidableEq, Repr

/-- The memory the pointer-chain resolver reads through: for each address,
the outcome of `read_memory_raw::<u32>` resp. `read_memory_raw::<u64>`
there (`Except` mirrors `Result<T, String>`). -/
structure ChainMem where
  read32 : Nat → Except String Nat
  read64 : Nat → Except String Nat

/-- The pointer-sized read `resolve_pointer_chain` issues at `loc`,
selected by architecture (`lib.rs` lines 234-237). -/
def archRead (arch : Arch) (mem : ChainMem) (loc : Nat) : Except String Nat :=
  match arch with
  | .x86 => mem.read32 loc
  | .x64 => mem.read64 loc

/-- Embeds the loop of `resolve_pointer_chain` (`lib.rs` lines 231-254) over
the intermediate offsets, carrying the 0-based index `i` and recording each
address dereferenced. A dereferenced zero stops with the 1-based-depth null
error; a failed read stops with the depth-annotated read error. -/
def resolveLoop (arch : Arch) (mem : ChainMem) :
    Nat → Nat → List Nat → Except String Nat × List Nat
  | current, _, [] => (.ok current, [])
  | current, i, offset :: rest =>
    let ptr_loc := (current + offset) % U64
    match archRead arch mem ptr_loc with
    | .ok 0 => (.error ("第 " ++ toString (i + 1) ++ " 层指针为空"), [ptr_loc])
    | .ok val =>
      let r := resolveLoop arch mem val (i + 1) rest
      (r.1, ptr_loc :: r.2)
    | .error e =>
      (.error ("第 " ++ toString (i + 1) ++ " 层读取失败: " ++ e), [ptr_loc])

/-- Embeds `MemoryTool::resolve_pointer_chain` (`lib.rs` lines 224-261):
validate the base, return it unchanged on an empty offset list, walk all
offsets but the last through `resolveLoop`, then add the last offset with
no dereference. Returns the result plus the trace of dereferenced
addresses. -/
def resolve_pointer_chain (arch : Arch) (mem : ChainMem) (base_addr : BInt)
    (offsets : List Nat) : Except String Nat × List Nat :=
  match bigint_to_addr base_addr with
  | .error e => (.error e, [])
  | .ok current =>
    if offsets.isEmpty then (.ok current, [])
    else
      match resolveLoop arch mem current 0 offsets.dropLast with
      | (.error e, tr) => (.error e, tr)
      | (.ok cur, tr) =>
        match offsets.getLast? with
        | some last => (.ok ((cur + last) % U64), tr)
        | none => (.ok cur, tr)

/-- `char::is_ascii_hexdigit`. -/
def isAsciiHexdigit (c : Char) : Bool :=
  (decide ('0' ≤ c) && decide (c ≤ '9')) ||
  (decide ('a' ≤ c) && decide (c ≤ 'f')) ||
  (decide ('A' ≤ c) && decide (c ≤ 'F'))

/-- Numeric value of one ASCII hex digit, as `from_str_radix` assigns it. -/
def hexVal (c : Char) : Nat :=
  if decide ('0' ≤ c) && decide (c ≤ '9') then c.toNat - '0'.toNat
  else if decide ('a' ≤ c) && decide (c ≤ 'f') then c.toNat - 'a'.toNat + 10
  else c.toNat - 'A'.toNat + 10

/-- Embeds `u8::from_str_radix(&cleaned[i..i+2], 16)` on one two-character
chunk: succeeds iff both characters are hex digits (a two-digit value is at
most 0xFF, so `u8` overflow cannot occur). -/
def hexPairVal (c1 c2 : Char) : Option Nat :=
  if isAsciiHexdigit c1 && isAsciiHexdigit c2 then
    some (16 * hexVal c1 + hexVal c2)
  else none

/-- Embeds the `(0..cleaned.len()).step_by(2)` decoding collect of
`write_instruction`: the byte list, or `none` if any chunk fails. -/
def decodeHexBytes : List Char → Option (List Nat)
  | c1 :: c2 :: rest => do
    let b ← hexPairVal c1 c2
    let bs ← decodeHexBytes rest
    pure (b :: bs)
  | _ => pure []

/-- Total counterpart of `decodeHexBytes` used to state what the decoded
bytes are when all characters are hex digits. -/
def hexBytes : List Char → List Nat
  | c1 :: c2 :: rest => (16 * hexVal c1 + hexVal c2) :: hexBytes rest
  | _ => []

/-- Embeds `MemoryTool::write_instruction` (`lib.rs` lines 405-422): keep
only ASCII hex digits, reject an odd digit count, decode byte pairs, then
delegate to `write_buffer`. -/
def write_instruction (env : WriteEnv) (addr : BInt) (hex_bytes : String) :
    Except String Unit × List OsCall :=
  let cleaned := hex_bytes.toList.filter isAsciiHexdigit
  if cleaned.length % 2 ≠ 0 then (.error "无效的十六进制字符串", [])
  else
    match decodeHexBytes cleaned with
    | none => (.error "十六进制解析失败", [])
    | some bytes => write_buffer env addr bytes

/-- Embeds `MemoryTool::nop_instruction` (`lib.rs` lines 426-429):
write `length` NOP bytes (0x90) through `write_buffer`. -/
def nop_instruction (env : WriteEnv) (addr : BInt) (length : Nat) :
    Except String Unit × List OsCall :=
  write_buffer env addr (List.replicate length 0x90)

/-- Embeds the `write_u64` instance of `impl_bigint_rw` (`lib.rs` lines
456-477 and 488): validate the address, destructure `value.get_u64()`
discarding the sign and lossless flags, and write the `u64` word. -/
def write_u64 (env : WriteEnv) (addr value : BInt) :
    Except String Unit × List OsCall :=
  match bigint_to_addr addr with
  | .error e => (.error e, [])
  | .ok addr_val =>
    let val_u64 := value.get_u64.2.1
    write_memory_raw env 8 addr_val val_u64

/-- Embeds the `write_i64` instance of `impl_bigint_rw` (`lib.rs` lines
456-477 and 489): as `write_u64`, but the word is cast `as i64` before the
8-byte write — the stored bit pattern, hence the bytes written, are those
of the same `u64` word. -/
def write_i64 (env : WriteEnv) (addr value : BInt) :
    Except String Unit × List OsCall :=
  match bigint_to_addr addr with
  | .error e => (.error e, [])
  | .ok addr_val =>
    let val_u64 := value.get_u64.2.1
    write_memory_raw env 8 addr_val val_u64

/-- A process of the snapshot enumeration (`internal/process.rs`). -/
structure ProcessInfo where
  pid : Nat
  name : String
  deriving DecidableEq, Repr

/-- `u8::to_ascii_lowercase` on a char: maps `A`..`Z` to `a`..`z`. -/
def toAsciiLower (c : Char) : Char :=
  if decide ('A' ≤ c) && decide (c ≤ 'Z') then Char.ofNat (c.toNat + 32) else c

/-- `str::eq_ignore_ascii_case`. -/
def eqIgnoreAsciiCase (a b : String) : Bool :=
  a.toList.map toAsciiLower == b.toList.map toAsciiLower

/-- Embeds `find_process_id` (`internal/process.rs` lines 36-62): walk the
process snapshot in order and return the pid of the first process whose
executable name matches case-insensitively. -/
def find_process_id (procs : List ProcessInfo) (name : String) : Option Nat :=
  (procs.find? fun entry => eqIgnoreAsciiCase entry.name name).map ProcessInfo.pid

/-- `CreateOptions` (`lib.rs` lines 24-33). -/
structure CreateOptions where
  processName : Option String
  pid : Option Nat
  archX64 : Option Bool
  debug : Option Bool
  deriving DecidableEq, Repr

/-- The OS environment construction runs against: the process snapshot,
the `is_process_x64` answer per pid, and whether `OpenProcess` succeeds. -/
structure CreateEnv where
  procs : List ProcessInfo
  detectX64 : Nat → Option Bool
  openOk : Nat → Bool
  openErr : String

/-- The `MemoryTool` state a successful construction produces. -/
structure ToolState where
  pid : Nat
  arch : Arch
  debug : Bool
  deriving DecidableEq, Repr

/-- Embeds `MemoryTool::create` plus `new_internal` (`lib.rs` lines 58-78 and
85-123): a supplied process name is resolved through `find_process_id`
(failing with the not-found error), a pid is used only when no name is
given, the architecture is taken from `archX64` or else detected
(defaulting to x64), and `OpenProcess` failure aborts construction. -/
def create (env : CreateEnv) (options : CreateOptions) :
    Except String ToolState :=
  let debug := options.debug.getD false
  let pidRes : Except String Nat :=
    match options.processName, options.pid with
    | some name, _ =>
      match find_process_id env.procs name with
      | some pid => .ok pid
      | none => .error ("未找到进程: " ++ name)
    | none, some pid => .ok pid
    | none, none => .error "必须提供 processName 或 pid"
  match pidRes with
  | .error e => .error e
  | .ok pid =>
    let arch : Arch :=
      match options.archX64 with
      | some true => .x64
      | some false => .x86
      | none =>
        match env.detectX64 pid with
        | some true => .x64
        | some false => .x86
        | none => .x64
    if env.openOk pid then .ok ⟨pid, arch, debug⟩
    else .error ("OpenProcess 失败: " ++ env.openErr)

/-! ### Helper lemmas -/

/-- Splitting the resolver loop at a successfully walked prefix: the walk of
`l₁ ++ l₂` runs `l₁` first and, when that yields `c`, continues on `l₂` with
the index advanced by `l₁.length`, concatenating the read traces. -/
theorem resolveLoop_append_ok (arch : Arch) (mem : ChainMem) :
    ∀ (l₁ l₂ : List Nat) (current i c : Nat) (t : List Nat),
      resolveLoop arch mem current i l₁ = (.ok c, t) →
      resolveLoop arch mem current i (l₁ ++ l₂) =
        ((resolveLoop arch mem c (i + l₁.length) l₂).1,
         t ++ (resolveLoop arch mem c (i + l₁.length) l₂).2) := by
  intro l₁
  induction l₁ with
  | nil =>
    intro l₂ current i c t h
    simp only [resolveLoop, Prod.mk.injEq, Except.ok.injEq] at h
    obtain ⟨h1, h2⟩ := h
    subst h1
    subst h2
    simp
  | cons o rest ih =>
    intro l₂ current i c t h
    rw [resolveLoop] at h
    rw [List.cons_append, resolveLoop]
    split at h
    · simp at h
    · rename_i val hne heq
      simp only [Prod.mk.injEq] at h
      obtain ⟨h1, h2⟩ := h
      have hs : resolveLoop arch mem val (i + 1) rest =
          (.ok c, (resolveLoop arch mem val (i + 1) rest).2) := by
        rw [← h1]
      have hrec := ih l₂ val (i + 1) c _ hs
      have harith : i + 1 + rest.length = i + (rest.length + 1) := by omega
      rw [harith] at hrec
      dsimp only
      rw [hrec]
      simp [← h2]
    · simp at h

/-- On a list of hex digits, the fallible pairwise decoder of
`write_instruction` succeeds and produces `hexBytes`. -/
theorem decodeHexBytes_eq :
    ∀ l : List Char, (∀ c ∈ l, isAsciiHexdigit c = true) →
      decodeHexBytes l = some (hexBytes l)
  | [], _ => rfl
  | [_], _ => rfl
  | c1 :: c2 :: rest, h => by
    have h1 : isAsciiHexdigit c1 = true := h c1 (by simp)
    have h2 : isAsciiHexdigit c2 = true := h c2 (by simp)
    have ih := decodeHexBytes_eq rest (fun c hc => h c (by simp [hc]))
    simp [decodeHexBytes, hexBytes, hexPairVal, h1, h2, ih]

/-! ### C1: short-transfer detection on writes -/

/-- C1 (counterexample): when the OS reports success for the direct
`WriteProcessMemory` but stores a `bytes_written` of 0 — fewer than the
requested 8 (resp. 2) bytes — both `write_memory_raw` and `write_buffer`
report success: the short write is not reported as failure. -/
theorem short_write_reported_success_cex :
    (write_memory_raw ⟨true, 0, false, 0, false, 0, false, 0⟩ 8 0x1000 5).1 =
      .ok () ∧
    (0 : Nat) < 8 ∧
    (write_buffer ⟨true, 0, false, 0, false, 0, false, 0⟩ ⟨false, 0x1000⟩
      [0x90, 0x90]).1 = .ok () ∧
    (0 : Nat) < 2 :=
  ⟨rfl, by decide, rfl, by decide⟩

/-- C1 (amended): for typed scalar writes (`write_memory_raw`) and raw
buffer writes (`write_buffer`), if the OS write call reports success the
operation reports success even when the number of bytes actually written is
fewer than the requested size — the byte count is never inspected on the
write path (only reads detect short transfers). -/
theorem short_write_not_detected (env : WriteEnv) (size addr value a : Nat)
    (addrB : BInt) (data : List Nat)
    (hdir : env.directOk = true)
    (hshort : env.directBytes < size)
    (haddr : bigint_to_addr addrB = .ok a)
    (hshort2 : env.directBytes < data.length) :
    (write_memory_raw env size addr value).1 = .ok () ∧
    (write_buffer env addrB data).1 = .ok () := by
  refine ⟨?_, ?_⟩
  · simp [write_memory_raw, hdir]
  · simp [write_buffer, haddr, hdir]

/-- Witness for `short_write_not_detected` at a concrete environment. -/
theorem short_write_not_detected_witness :
    (write_memory_raw ⟨true, 0, false, 0, false, 0, false, 0⟩ 8 0x1000 5).1 =
      .ok () ∧
    (write_buffer ⟨true, 0, false, 0, false, 0, false, 0⟩ ⟨false, 0x1000⟩
      [0x90]).1 = .ok () :=
  short_write_not_detected ⟨true, 0, false, 0, false, 0, false, 0⟩ 8 0x1000 5
    0x1000 ⟨false, 0x1000⟩ [0x90] rfl (by decide) rfl (by decide)

/-! ### C2: error reporting for short reads -/

/-- C2 (counterexample): a short read (OS call succeeds, `bytes_read = 4`
of the requested 8) produces exactly the same error as an OS-reported
failure with the same last error — the last-platform-error string — so the
short-transfer failure carries the platform error description and is not
distinguishable from `OsError(code)`. -/
theorem short_read_error_indistinguishable_cex :
    read_memory_raw ⟨true, 4, 0, 5⟩ 8 = .error (get_last_error_string 5) ∧
    read_memory_raw ⟨false, 8, 0, 5⟩ 8 = .error (get_last_error_string 5) ∧
    read_memory_raw ⟨true, 4, 0, 5⟩ 8 = read_memory_raw ⟨false, 8, 0, 5⟩ 8 :=
  ⟨rfl, rfl, rfl⟩

/-- C2 (amended): every failed typed read — short transfer or OS-reported
failure alike — returns the same last-platform-error string
`get_last_error_string()`; the two failure modes are not distinguished. -/
theorem read_failure_uses_last_error (env : ReadEnv) (size : Nat)
    (h : ¬(env.readOk = true ∧ env.bytesRead = size)) :
    read_memory_raw env size = .error (get_last_error_string env.lastError) := by
  have hb : (env.readOk && (env.bytesRead == size)) = false := by
    cases hcond : env.readOk && (env.bytesRead == size)
    · rfl
    · rw [Bool.and_eq_true] at hcond
      exact absurd ⟨hcond.1, by simpa using hcond.2⟩ h
  simp [read_memory_raw, hb]

/-- Witness for `read_failure_uses_last_error` at a concrete short read. -/
theorem read_failure_uses_last_error_witness :
    read_memory_raw ⟨true, 4, 0, 5⟩ 8 = .error (get_last_error_string 5) :=
  read_failure_uses_last_error ⟨true, 4, 0, 5⟩ 8 (by decide)

/-! ### C5: forced-write protection restoration -/

/-- C5: on the forced-write path (direct write failed, protection change
succeeded), both `write_memory_raw` and `write_buffer` issue, after the
retried write, a `VirtualProtectEx` restoring the captured protection flags
over the same byte range — in the trace regardless of the retry's outcome —
and report success iff the retried write succeeded. Moreover the result is
the same for any environment `env'` agreeing with `env` on the fields the
code consults (`directOk`, `protectOk`, `retryOk`, `capturedOldProtect`,
`lastError`): in particular the restoration call's own outcome
(`restoreOk`) never influences the reported result. -/
theorem forced_write_restores_protection (env env' : WriteEnv)
    (size addr value a : Nat) (addrB : BInt) (data : List Nat)
    (hdir : env.directOk = false) (hprot : env.protectOk = true)
    (haddr : bigint_to_addr addrB = .ok a)
    (hd : env'.directOk = env.directOk) (hp : env'.protectOk = env.protectOk)
    (hr : env'.retryOk = env.retryOk)
    (hc : env'.capturedOldProtect = env.capturedOldProtect)
    (hl : env'.lastError = env.lastError) :
    (write_memory_raw env size addr value).2 =
      [.writeVal addr size value, .protect addr size PAGE_EXECUTE_READWRITE,
       .writeVal addr size value, .protect addr size env.capturedOldProtect] ∧
    ((write_memory_raw env size addr value).1 = .ok () ↔ env.retryOk = true) ∧
    (write_buffer env addrB data).2 =
      [.writeBuf a data, .protect a data.length PAGE_EXECUTE_READWRITE,
       .writeBuf a data, .protect a data.length env.capturedOldProtect] ∧
    ((write_buffer env addrB data).1 = .ok () ↔ env.retryOk = true) ∧
    write_memory_raw env' size addr value = write_memory_raw env size addr value ∧
    write_buffer env' addrB data = write_buffer env addrB data := by
  cases hretry : env.retryOk <;>
    simp [write_memory_raw, write_buffer, haddr, hdir, hprot, hretry,
      hd, hp, hr, hc, hl]

/-- Witness for `forced_write_restores_protection`: direct write fails,
protection change succeeds, retry succeeds, restoration fails in `env`
(`restoreOk = false`) while `env'` differs only in `restoreOk`. -/
theorem forced_write_restores_protection_witness :
    (write_memory_raw ⟨false, 0, true, 0x20, true, 8, false, 0⟩ 8 0x1000 5).2 =
      [.writeVal 0x1000 8 5, .protect 0x1000 8 PAGE_EXECUTE_READWRITE,
       .writeVal 0x1000 8 5, .protect 0x1000 8 0x20] ∧
    ((write_memory_raw ⟨false, 0, true, 0x20, true, 8, false, 0⟩ 8 0x1000 5).1 =
      .ok () ↔ true = true) ∧
    (write_buffer ⟨false, 0, true, 0x20, true, 8, false, 0⟩ ⟨false, 0x2000⟩
      [0x90]).2 =
      [.writeBuf 0x2000 [0x90], .protect 0x2000 1 PAGE_EXECUTE_READWRITE,
       .writeBuf 0x2000 [0x90], .protect 0x2000 1 0x20] ∧
    ((write_buffer ⟨false, 0, true, 0x20, true, 8, false, 0⟩ ⟨false, 0x2000⟩
      [0x90]).1 = .ok () ↔ true = true) ∧
    write_memory_raw ⟨false, 0, true, 0x20, true, 8, true, 0⟩ 8 0x1000 5 =
      write_memory_raw ⟨false, 0, true, 0x20, true, 8, false, 0⟩ 8 0x1000 5 ∧
    write_buffer ⟨false, 0, true, 0x20, true, 8, true, 0⟩ ⟨false, 0x2000⟩ [0x90] =
      write_buffer ⟨false, 0, true, 0x20, true, 8, false, 0⟩ ⟨false, 0x2000⟩
        [0x90] :=
  forced_write_restores_protection
    ⟨false, 0, true, 0x20, true, 8, false, 0⟩
    ⟨false, 0, true, 0x20, true, 8, true, 0⟩
    8 0x1000 5 0x2000 ⟨false, 0x2000⟩ [0x90]
    rfl rfl rfl rfl rfl rfl rfl rfl

/-! ### C6: protection-change failure and the common path -/

/-- C6: for both `write_memory_raw` and `write_buffer` — if the direct write
fails and the protection change also fails, the operation reports the
protection-change failure and the trace shows no second write call; and if
the direct write succeeds, the trace is the single write call, so no
protection change occurs at all. -/
theorem protect_failure_stops_write (env : WriteEnv)
    (size addr value a : Nat) (addrB : BInt) (data : List Nat)
    (haddr : bigint_to_addr addrB = .ok a) :
    (env.directOk = false → env.protectOk = false →
      (write_memory_raw env size addr value).1 =
        .error ("VirtualProtectEx失败: " ++ get_last_error_string env.lastError) ∧
      (write_memory_raw env size addr value).2 =
        [.writeVal addr size value,
         .protect addr size PAGE_EXECUTE_READWRITE] ∧
      (write_buffer env addrB data).1 =
        .error ("修改内存保护失败: " ++ get_last_error_string env.lastError) ∧
      (write_buffer env addrB data).2 =
        [.writeBuf a data, .protect a data.length PAGE_EXECUTE_READWRITE]) ∧
    (env.directOk = true →
      (write_memory_raw env size addr value).2 = [.writeVal addr size value] ∧
      (write_buffer env addrB data).2 = [.writeBuf a data]) := by
  refine ⟨fun hdir hprot => ?_, fun hdir => ?_⟩
  · simp [write_memory_raw, write_buffer, haddr, hdir, hprot]
  · simp [write_memory_raw, write_buffer, haddr, hdir]

/-- Witness for `protect_failure_stops_write`: both the
direct-write-fails-and-protect-fails branch and the common path, at
concrete environments. -/
theorem protect_failure_stops_write_witness :
    ((write_memory_raw ⟨false, 0, false, 0, true, 8, true, 7⟩ 8 0x1000 5).1 =
      .error ("VirtualProtectEx失败: " ++ get_last_error_string 7) ∧
     (write_memory_raw ⟨false, 0, false, 0, true, 8, true, 7⟩ 8 0x1000 5).2 =
      [.writeVal 0x1000 8 5, .protect 0x1000 8 PAGE_EXECUTE_READWRITE] ∧
     (write_buffer ⟨false, 0, false, 0, true, 8, true, 7⟩ ⟨false, 0x2000⟩
       [0x90]).1 =
      .error ("修改内存保护失败: " ++ get_last_error_string 7) ∧
     (write_buffer ⟨false, 0, false, 0, true, 8, true, 7⟩ ⟨false, 0x2000⟩
       [0x90]).2 =
      [.writeBuf 0x2000 [0x90], .protect 0x2000 1 PAGE_EXECUTE_READWRITE]) ∧
    ((write_memory_raw ⟨true, 8, false, 0, true, 8, true, 7⟩ 8 0x1000 5).2 =
      [.writeVal 0x1000 8 5] ∧
     (write_buffer ⟨true, 8, false, 0, true, 8, true, 7⟩ ⟨false, 0x2000⟩
       [0x90]).2 = [.writeBuf 0x2000 [0x90]]) :=
  ⟨(protect_failure_stops_write ⟨false, 0, false, 0, true, 8, true, 7⟩
      8 0x1000 5 0x2000 ⟨false, 0x2000⟩ [0x90] rfl).1 rfl rfl,
   (protect_failure_stops_write ⟨true, 8, false, 0, true, 8, true, 7⟩
      8 0x1000 5 0x2000 ⟨false, 0x2000⟩ [0x90] rfl).2 rfl⟩

/-- Unfolding of `resolve_pointer_chain` on a validated base and a
non-empty offset list. -/
theorem resolve_eq_of_ok (arch : Arch) (mem : ChainMem) (base : BInt)
    (c0 : Nat) (offs : List Nat) (hbase : bigint_to_addr base = .ok c0)
    (hne : offs ≠ []) :
    resolve_pointer_chain arch mem base offs =
      (match resolveLoop arch mem c0 0 offs.dropLast with
       | (.error e, tr) => (.error e, tr)
       | (.ok cur, tr) =>
         match offs.getLast? with
         | some last => (.ok ((cur + last) % U64), tr)
         | none => (.ok cur, tr)) := by
  have h1 : offs.isEmpty = false := by
    cases offs
    · exact absurd rfl hne
    · rfl
  rw [resolve_pointer_chain, hbase]
  dsimp only
  rw [h1]
  simp only [Bool.false_eq_true, if_false]

/-! ### C3: null pointer in chain -/

/-- C3: for a chain of length at least 2 (here `(pre ++ off :: post) ++
[last]`), if the walk of the intermediate prefix `pre` succeeds with value
`c` and trace `t`, and the pointer-sized value dereferenced at the next
step is zero, then `resolve_pointer_chain` fails with the
null-pointer-in-chain error identifying the 1-based depth
`pre.length + 1`, and the read trace is exactly `t` plus that one
dereference — no memory read is issued for any subsequent offset. -/
theorem null_pointer_in_chain_stops (arch : Arch) (mem : ChainMem)
    (base : BInt) (c0 c off last : Nat) (pre post t : List Nat)
    (hbase : bigint_to_addr base = .ok c0)
    (hpre : resolveLoop arch mem c0 0 pre = (.ok c, t))
    (hzero : archRead arch mem ((c + off) % U64) = .ok 0) :
    resolve_pointer_chain arch mem base ((pre ++ off :: post) ++ [last]) =
      (.error ("第 " ++ toString (pre.length + 1) ++ " 层指针为空"),
       t ++ [(c + off) % U64]) := by
  have happ := resolveLoop_append_ok arch mem pre (off :: post) c0 0 c t hpre
  rw [resolveLoop] at happ
  rw [hzero] at happ
  simp only [Nat.zero_add] at happ
  rw [resolve_eq_of_ok arch mem base c0 _ hbase (by simp)]
  rw [List.dropLast_concat]
  rw [happ]

/-- Witness for `null_pointer_in_chain_stops`: a 64-bit memory whose every
pointer-sized read yields 0 makes `resolve_pointer_chain` of the chain
`[0x10, 0x20]` from base `0x1000` fail at depth 1 after a single read. -/
theorem null_pointer_in_chain_stops_witness :
    resolve_pointer_chain .x64 ⟨fun _ => .error "", fun _ => .ok 0⟩
        ⟨false, 0x1000⟩ (([] ++ 0x10 :: []) ++ [0x20]) =
      (.error ("第 " ++ toString (List.length ([] : List Nat) + 1) ++
        " 层指针为空"), [] ++ [(0x1000 + 0x10) % U64]) :=
  null_pointer_in_chain_stops .x64 ⟨fun _ => .error "", fun _ => .ok 0⟩
    ⟨false, 0x1000⟩ 0x1000 0x1000 0x10 0x20 [] [] [] rfl rfl rfl

/-! ### C4: final offset, single offset, empty chain -/

/-- C4 (counterexample): with base `2^64 - 1` (a valid lossless `u64`
address) and the single offset `1`, `resolve_pointer_chain` returns the
wrapped `usize`/`u64` sum `0`, not `base + k = 2^64` — so
`resolve(base, [k]) = base + k` does not hold for every base and offset. -/
theorem single_offset_chain_wraps_cex :
    resolve_pointer_chain .x64 ⟨fun _ => .error "", fun _ => .error ""⟩
        ⟨false, 2 ^ 64 - 1⟩ [1] = (.ok 0, []) ∧
    (2 ^ 64 - 1) + 1 ≠ 0 :=
  ⟨rfl, by decide⟩

/-- C4 (amended): an empty offset list returns the base unchanged with no
memory read; the last offset of any chain is added to the current value
modulo `2^64` without dereferencing it (the read trace is exactly that of
the intermediate prefix); in particular a single-offset chain returns
`(base + k) % 2^64` — which equals `base + k` whenever the sum fits in 64
bits — with zero pointer dereferences. -/
theorem final_offset_no_deref (arch : Arch) (mem : ChainMem) (base : BInt)
    (c0 c k : Nat) (pre t : List Nat)
    (hbase : bigint_to_addr base = .ok c0)
    (hpre : resolveLoop arch mem c0 0 pre = (.ok c, t)) :
    resolve_pointer_chain arch mem base (pre ++ [k]) =
      (.ok ((c + k) % U64), t) ∧
    resolve_pointer_chain arch mem base [k] = (.ok ((c0 + k) % U64), []) ∧
    resolve_pointer_chain arch mem base [] = (.ok c0, []) := by
  have key : ∀ (pre' t' : List Nat) (c' : Nat),
      resolveLoop arch mem c0 0 pre' = (.ok c', t') →
      resolve_pointer_chain arch mem base (pre' ++ [k]) =
        (.ok ((c' + k) % U64), t') := by
    intro pre' t' c' hpre'
    rw [resolve_eq_of_ok arch mem base c0 _ hbase (by simp)]
    rw [List.dropLast_concat, hpre', List.getLast?_concat]
  refine ⟨key pre t c hpre, ?_, ?_⟩
  · have h1 := key [] [] c0 rfl
    simpa using h1
  · simp [resolve_pointer_chain, hbase]

/-- Witness for `final_offset_no_deref` at a concrete base and offset. -/
theorem final_offset_no_deref_witness :
    resolve_pointer_chain .x64 ⟨fun _ => .error "", fun _ => .error ""⟩
        ⟨false, 0x1000⟩ ([] ++ [0x10]) = (.ok ((0x1000 + 0x10) % U64), []) ∧
    resolve_pointer_chain .x64 ⟨fun _ => .error "", fun _ => .error ""⟩
        ⟨false, 0x1000⟩ [0x10] = (.ok ((0x1000 + 0x10) % U64), []) ∧
    resolve_pointer_chain .x64 ⟨fun _ => .error "", fun _ => .error ""⟩
        ⟨false, 0x1000⟩ [] = (.ok 0x1000, []) :=
  final_offset_no_deref .x64 ⟨fun _ => .error "", fun _ => .error ""⟩
    ⟨false, 0x1000⟩ 0x1000 0x1000 0x10 [] [] rfl rfl

/-! ### C7: non-hex content in instruction-byte writes -/

/-- C7 (counterexample): the input `"9z0"` contains non-hex content, yet
`write_instruction` does not fail with the invalid-hex error — the `z` is
silently stripped, the remaining digits decode to `0x90`, and the write is
attempted and succeeds. -/
theorem nonhex_content_ignored_cex :
    "9z0".toList.filter isAsciiHexdigit = ['9', '0'] ∧
    (write_instruction ⟨true, 1, false, 0, false, 0, false, 0⟩
      ⟨false, 0x1000⟩ "9z0").1 = .ok () ∧
    (write_instruction ⟨true, 1, false, 0, false, 0, false, 0⟩
      ⟨false, 0x1000⟩ "9z0").2 = [.writeBuf 0x1000 [0x90]] :=
  ⟨by decide, rfl, rfl⟩

/-- C7 (amended): `write_instruction` silently strips every character that
is not an ASCII hex digit; it fails with the invalid-hex error exactly when
the count of hex digits remaining after stripping is odd (and then before
any memory write), and otherwise behaves as `write_buffer` on the bytes
decoded from the stripped string. -/
theorem write_instruction_strips_nonhex (env : WriteEnv) (addrB : BInt)
    (s : String) :
    ((s.toList.filter isAsciiHexdigit).length % 2 = 1 →
      write_instruction env addrB s = (.error "无效的十六进制字符串", [])) ∧
    ((s.toList.filter isAsciiHexdigit).length % 2 = 0 →
      write_instruction env addrB s =
        write_buffer env addrB (hexBytes (s.toList.filter isAsciiHexdigit))) := by
  have hdec : decodeHexBytes (s.toList.filter isAsciiHexdigit) =
      some (hexBytes (s.toList.filter isAsciiHexdigit)) :=
    decodeHexBytes_eq _ (fun c hc => (List.mem_filter.mp hc).2)
  refine ⟨fun hodd => ?_, fun heven => ?_⟩
  · rw [write_instruction]
    rw [if_pos (by omega)]
  · rw [write_instruction]
    rw [if_neg (by omega)]
    rw [hdec]

/-- Witness for `write_instruction_strips_nonhex`: the odd case on `"9"`
and the even case on `"9z0"`, at a concrete environment. -/
theorem write_instruction_strips_nonhex_witness :
    write_instruction ⟨true, 1, false, 0, false, 0, false, 0⟩ ⟨false, 0x1000⟩
      "9" = (.error "无效的十六进制字符串", []) ∧
    write_instruction ⟨true, 1, false, 0, false, 0, false, 0⟩ ⟨false, 0x1000⟩
      "9z0" =
      write_buffer ⟨true, 1, false, 0, false, 0, false, 0⟩ ⟨false, 0x1000⟩
        (hexBytes ("9z0".toList.filter isAsciiHexdigit)) :=
  ⟨(write_instruction_strips_nonhex ⟨true, 1, false, 0, false, 0, false, 0⟩
      ⟨false, 0x1000⟩ "9").1 (by decide),
   (write_instruction_strips_nonhex ⟨true, 1, false, 0, false, 0, false, 0⟩
      ⟨false, 0x1000⟩ "9z0").2 (by decide)⟩

/-! ### C8: hex patch parsing examples -/

/-- C8: the instruction-byte decoder maps `"90 90 90"` and `"909090"` to
the same three bytes `0x90 0x90 0x90` — so `write_instruction` behaves
identically on the two inputs — and `"9"` (odd digit count) fails with the
invalid-hex error with an empty trace, i.e. before any memory write is
attempted. -/
theorem hex_patch_parsing_examples (env : WriteEnv) (addrB : BInt) :
    decodeHexBytes ("90 90 90".toList.filter isAsciiHexdigit) =
      some [0x90, 0x90, 0x90] ∧
    decodeHexBytes ("909090".toList.filter isAsciiHexdigit) =
      some [0x90, 0x90, 0x90] ∧
    write_instruction env addrB "90 90 90" =
      write_instruction env addrB "909090" ∧
    write_instruction env addrB "9" = (.error "无效的十六进制字符串", []) :=
  ⟨by decide, by decide, rfl, rfl⟩

/-! ### C9: sign and lossless flags in 64-bit BigInt writes -/

/-- C9 (counterexample): `write_i64` with value `-1` (sign bit set,
magnitude 1) silently succeeds and writes the word `1` — the low 64 bits of
the magnitude — whereas `value mod 2^64` is `2^64 - 1 ≠ 1`: the silent
reduction is not `value mod 2^64` for negative values. -/
theorem bigint_write_negative_magnitude_cex :
    write_i64 ⟨true, 8, false, 0, false, 0, false, 0⟩ ⟨false, 0x1000⟩
      ⟨true, 1⟩ = (.ok (), [.writeVal 0x1000 8 1]) ∧
    BInt.toInt ⟨true, 1⟩ = -1 ∧
    ((-1 : Int) % (2 ^ 64 : Int)).toNat = 2 ^ 64 - 1 ∧
    (1 : Nat) ≠ 2 ^ 64 - 1 :=
  ⟨rfl, by decide, by decide, by decide⟩

/-- C9 (amended): `write_u64` and `write_i64` ignore the sign flag and the
losslessness flag of the value BigInt: whatever they are, the low 64 bits
of the value's magnitude (`mag % 2^64` — equal to `value mod 2^64` for
non-negative values, but not for negative ones) are written without error
whenever the OS write succeeds; the address argument of the same call, by
contrast, is strictly validated (a sign-flagged address is rejected before
any OS call). -/
theorem bigint_write_ignores_sign_lossless (env : WriteEnv)
    (addrB value : BInt) (a : Nat)
    (haddr : bigint_to_addr addrB = .ok a)
    (hdir : env.directOk = true) :
    write_u64 env addrB value = (.ok (), [.writeVal a 8 (value.mag % U64)]) ∧
    write_i64 env addrB value = (.ok (), [.writeVal a 8 (value.mag % U64)]) ∧
    (value.signBit = false →
      value.mag % U64 = (value.toInt % ((2 ^ 64 : Nat) : Int)).toNat) ∧
    write_u64 env ⟨true, a⟩ value = (.error "内存地址不能为负数", []) := by
  refine ⟨?_, ?_, fun hsign => ?_, ?_⟩
  · simp [write_u64, haddr, write_memory_raw, hdir, BInt.get_u64]
  · simp [write_i64, haddr, write_memory_raw, hdir, BInt.get_u64]
  · rw [BInt.toInt, if_neg (by simp [hsign])]
    rw [← Int.ofNat_emod]
    rw [Int.toNat_natCast]
    rfl
  · simp [write_u64, bigint_to_addr, BInt.get_u64]

/-- Witness for `bigint_write_ignores_sign_lossless` at the value `-1`
(sign set, not lossless) and a valid address. -/
theorem bigint_write_ignores_sign_lossless_witness :
    write_u64 ⟨true, 8, false, 0, false, 0, false, 0⟩ ⟨false, 0x1000⟩
      ⟨true, 1⟩ = (.ok (), [.writeVal 0x1000 8 (BInt.mag ⟨true, 1⟩ % U64)]) ∧
    write_i64 ⟨true, 8, false, 0, false, 0, false, 0⟩ ⟨false, 0x1000⟩
      ⟨true, 1⟩ = (.ok (), [.writeVal 0x1000 8 (BInt.mag ⟨true, 1⟩ % U64)]) ∧
    (BInt.signBit ⟨true, 1⟩ = false →
      BInt.mag ⟨true, 1⟩ % U64 =
        (BInt.toInt ⟨true, 1⟩ % ((2 ^ 64 : Nat) : Int)).toNat) ∧
    write_u64 ⟨true, 8, false, 0, false, 0, false, 0⟩ ⟨true, 0x1000⟩
      ⟨true, 1⟩ = (.error "内存地址不能为负数", []) :=
  bigint_write_ignores_sign_lossless ⟨true, 8, false, 0, false, 0, false, 0⟩
    ⟨false, 0x1000⟩ ⟨true, 1⟩ 0x1000 rfl rfl

/-! ### C10: process name takes precedence over pid at construction -/

/-- C10: when `CreateOptions` carries both a process name and a pid, the
name takes precedence: the pid argument never influences the outcome, the
process is resolved by (case-insensitive) name lookup, and construction
fails with the process-not-found error when no process matches the name —
even when the supplied pid is valid (`OpenProcess` would succeed on it);
when the lookup succeeds, the constructed state carries the looked-up pid,
not the supplied one. -/
theorem create_name_precedence (env : CreateEnv) (name : String)
    (pidOpt : Option Nat) (archOpt dbgOpt : Option Bool) (q : Nat) :
    (find_process_id env.procs name = none →
      create env ⟨some name, pidOpt, archOpt, dbgOpt⟩ =
        .error ("未找到进程: " ++ name)) ∧
    (∀ x y : Option Nat,
      create env ⟨some name, x, archOpt, dbgOpt⟩ =
        create env ⟨some name, y, archOpt, dbgOpt⟩) ∧
    (find_process_id env.procs name = some q → env.openOk q = true →
      ∃ st, create env ⟨some name, pidOpt, archOpt, dbgOpt⟩ = .ok st ∧
        st.pid = q) := by
  refine ⟨fun hnone => ?_, fun x y => ?_, fun hsome hopen => ?_⟩
  · simp [create, hnone]
  · simp [create]
  · refine ⟨⟨q, match archOpt with
      | some true => .x64
      | some false => .x86
      | none => match env.detectX64 q with
        | some true => .x64
        | some false => .x86
        | none => .x64, dbgOpt.getD false⟩, ?_, rfl⟩
    simp [create, hsome, hopen]

/-- Witness for `create_name_precedence`: a snapshot with a single process
`Target.exe` (pid 7). Lookup of `ghost.exe` fails even though pid 42 was
supplied and `OpenProcess` succeeds on every pid; lookup of `target.exe`
(case-insensitive) resolves to pid 7, ignoring the supplied pid 42. -/
theorem create_name_precedence_witness :
    create ⟨[⟨7, "Target.exe"⟩], fun _ => none, fun _ => true, ""⟩
        ⟨some "ghost.exe", some 42, none, none⟩ =
      .error ("未找到进程: " ++ "ghost.exe") ∧
    ∃ st, create ⟨[⟨7, "Target.exe"⟩], fun _ => none, fun _ => true, ""⟩
        ⟨some "target.exe", some 42, none, none⟩ = .ok st ∧ st.pid = 7 :=
  ⟨(create_name_precedence ⟨[⟨7, "Target.exe"⟩], fun _ => none, fun _ => true, ""⟩
      "ghost.exe" (some 42) none none 7).1 (by decide),
   (create_name_precedence ⟨[⟨7, "Target.exe"⟩], fun _ => none, fun _ => true, ""⟩
      "target.exe" (some 42) none none 7).2.2 (by decide) rfl⟩

end MemoryTool
